import Mathlib

/-!
Verification development for the Plasma compiler front end
(src/plasma/compiler/parser.py): a shallow embedding of PlasmaTokenizer and
PlasmaParser, followed by theorems about the embedded functions.

Conventions of the embedding:
* Python source text is modelled as a list of characters; the cursor is an
  index into that list.
* The regex alternation of token_patterns is modelled by trying each
  pattern, in the same order, at the current position; each individual
  pattern is modelled by a deterministic longest-step scanner that agrees
  with the greedy semantics of the Python regexes involved.
* Python exceptions (SyntaxError, and the TypeError raised by subscripting
  None) are modelled by the error branch of an Except String result.
* The indent-levels stack is stored with the TOP at the HEAD of the list
  (the reverse of the Python list, whose top is at the end); the base entry
  0 is therefore the last element of the Lean list.
* Unbounded recursion (the re-entrant calls of get_next_token and the
  mutually recursive parser productions) is modelled with an explicit fuel
  parameter; wrappers supply fuel that is large enough for any input.
* Python floats are not modelled: a float literal node stores its lexeme.
-/

/-- Token kinds that PlasmaTokenizer.get_next_token can return. -/
inductive Tok where
  | INT | FLOAT | STR | BOOL | TYPE | IF | RETURN | OPERATOR
  | IDENTIFIER | LPAREN | RPAREN | COMMA | COLON | SEMI
  | INDENT | DEDENT
deriving DecidableEq, Repr

/-- The name of a token kind, as used in Python error message strings. -/
def tokStr : Tok → String
  | .INT => "INT"
  | .FLOAT => "FLOAT"
  | .STR => "STR"
  | .BOOL => "BOOL"
  | .TYPE => "TYPE"
  | .IF => "IF"
  | .RETURN => "RETURN"
  | .OPERATOR => "OPERATOR"
  | .IDENTIFIER => "IDENTIFIER"
  | .LPAREN => "LPAREN"
  | .RPAREN => "RPAREN"
  | .COMMA => "COMMA"
  | .COLON => "COLON"
  | .SEMI => "SEMI"
  | .INDENT => "INDENT"
  | .DEDENT => "DEDENT"

/-- A token record: the dict produced by get_next_token. -/
structure Token where
  type : Tok
  value : String
deriving DecidableEq, Repr

/-- Raw pattern names of the token_patterns table, including the three
names (NEWLINE, WHITESPACE, COMMENT) that never surface as tokens. -/
inductive RTok where
  | FLOAT | INT | STR | BOOL | TYPE | IF | RETURN | OPERATOR | IDENTIFIER
  | LPAREN | RPAREN | COMMA | COLON | SEMI | NEWLINE | WHITESPACE | COMMENT
deriving DecidableEq, Repr

/- Characters that are delicate to write literally are named. -/

/-- Tab character. -/
def chTab : Char := Char.ofNat 9
/-- Newline character. -/
def chNL : Char := Char.ofNat 10
/-- Carriage return. -/
def chCR : Char := Char.ofNat 13
/-- Double quote. -/
def chDQ : Char := Char.ofNat 34
/-- Single quote. -/
def chSQ : Char := Char.ofNat 39
/-- Backslash. -/
def chBS : Char := Char.ofNat 92
/-- A single-quote string, used to build Python error messages. -/
def sqStr : String := String.singleton chSQ
/-- Wraps a string in single quotes, as Python f-strings in the source do. -/
def quoteStr (s : String) : String := sqStr ++ s ++ sqStr

/-- Count of leading characters satisfying p. -/
def countWhileP (p : Char → Bool) : List Char → Nat
  | [] => 0
  | c :: rest => if p c then countWhileP p rest + 1 else 0

/-- Count of leading ASCII digits (the regex d class under re.ASCII). -/
def countDigits (s : List Char) : Nat := countWhileP (fun c => c.isDigit) s

/-- The FLOAT pattern: an optional minus sign, digits, a dot, digits.
Returns the length matched, if any. -/
def matchFloat (s : List Char) : Option Nat :=
  let pre : Nat × List Char :=
    match s with
    | c :: rest => if c = '-' then (1, rest) else (0, s)
    | [] => (0, s)
  let d1 := countDigits pre.2
  if d1 = 0 then none
  else
    match pre.2.drop d1 with
    | c :: s3 =>
      if c = '.' then
        let d2 := countDigits s3
        if d2 = 0 then none else some (pre.1 + d1 + 1 + d2)
      else none
    | [] => none

/-- The INT pattern: an optional minus sign followed by digits. -/
def matchIntTok (s : List Char) : Option Nat :=
  let pre : Nat × List Char :=
    match s with
    | c :: rest => if c = '-' then (1, rest) else (0, s)
    | [] => (0, s)
  let d1 := countDigits pre.2
  if d1 = 0 then none else some (pre.1 + d1)

/-- Scans the body of a string literal with closing quote q: plain
characters other than q and backslash (newlines included), or a backslash
followed by any character except a newline.  Returns the length scanned
including the closing quote, or none when the literal never closes. -/
def strBody (q : Char) : List Char → Option Nat
  | [] => none
  | c :: rest =>
    if c = q then some 1
    else if c = chBS then
      match rest with
      | [] => none
      | c2 :: rest2 =>
        if c2 = chNL then none
        else (strBody q rest2).map (fun n => n + 2)
    else (strBody q rest).map (fun n => n + 1)

/-- The STR pattern: a double- or single-quoted, backslash-escaped string. -/
def matchStrTok (s : List Char) : Option Nat :=
  match s with
  | c :: rest =>
    if c = chDQ then (strBody chDQ rest).map (fun n => n + 1)
    else if c = chSQ then (strBody chSQ rest).map (fun n => n + 1)
    else none
  | [] => none

/-- Matches a literal keyword as a bare initial segment (no word-boundary
check, exactly as the Python regex alternatives behave). -/
def kwLen (kw : String) (s : List Char) : Option Nat :=
  if kw.data.isPrefixOf s then some kw.length else none

/-- Tries keyword alternatives in order; the first that matches wins. -/
def kwAlt (kws : List String) (s : List Char) : Option Nat :=
  match kws with
  | [] => none
  | kw :: rest =>
    match kwLen kw s with
    | some n => some n
    | none => kwAlt rest s

/-- The BOOL pattern: true or false, in that order. -/
def matchBool (s : List Char) : Option Nat :=
  kwAlt ["true", "false"] s

/-- The TYPE pattern: int, float, str, bool or void, in that order. -/
def matchType (s : List Char) : Option Nat :=
  kwAlt ["int", "float", "str", "bool", "void"] s

/-- The OPERATOR pattern: one of + - * /, or an optional one of = ! < >
followed by =, or a bare < or >, tried in that order with backtracking. -/
def matchOp : List Char → Option Nat
  | [] => none
  | c :: rest =>
    if c = '+' || c = '-' || c = '*' || c = '/' then some 1
    else if (c = '=' || c = '!' || c = '<' || c = '>') &&
        (match rest with | c2 :: _ => c2 = '=' | [] => false) then some 2
    else if c = '=' then some 1
    else if c = '<' || c = '>' then some 1
    else none

/-- First character of an identifier: ASCII letter or underscore. -/
def isIdentStart (c : Char) : Bool := c.isAlpha || c = '_'

/-- Later character of an identifier: ASCII letter, digit or underscore. -/
def isIdentChar (c : Char) : Bool := c.isAlpha || c.isDigit || c = '_'

/-- The IDENTIFIER pattern. -/
def matchIdent : List Char → Option Nat
  | [] => none
  | c :: rest =>
    if isIdentStart c then some (1 + countWhileP isIdentChar rest) else none

/-- Matches one literal character. -/
def chLen (ch : Char) (s : List Char) : Option Nat :=
  match s with
  | c :: _ => if c = ch then some 1 else none
  | [] => none

/-- The WHITESPACE pattern: one or more inline spaces or tabs. -/
def matchWs (s : List Char) : Option Nat :=
  let n := countWhileP (fun c => c = ' ' || c = chTab) s
  if n = 0 then none else some n

/-- The COMMENT pattern: two slashes then everything up to a newline. -/
def matchComment (s : List Char) : Option Nat :=
  match s with
  | c1 :: c2 :: rest =>
    if c1 = '/' && c2 = '/' then
      some (2 + countWhileP (fun c => c != chNL) rest)
    else none
  | _ => none

/-- The token_patterns table, in source order: each entry pairs a pattern
name with its matcher. -/
def tokenPatterns : List (RTok × (List Char → Option Nat)) :=
  [(RTok.FLOAT, matchFloat),
   (RTok.INT, matchIntTok),
   (RTok.STR, matchStrTok),
   (RTok.BOOL, matchBool),
   (RTok.TYPE, matchType),
   (RTok.IF, kwLen "if"),
   (RTok.RETURN, kwLen "return"),
   (RTok.OPERATOR, matchOp),
   (RTok.IDENTIFIER, matchIdent),
   (RTok.LPAREN, chLen '('),
   (RTok.RPAREN, chLen ')'),
   (RTok.COMMA, chLen ','),
   (RTok.COLON, chLen ':'),
   (RTok.SEMI, chLen ';'),
   (RTok.NEWLINE, chLen chNL),
   (RTok.WHITESPACE, matchWs),
   (RTok.COMMENT, matchComment)]

/-- Tries the patterns of a table in order; the first that matches wins. -/
def firstPat (s : List Char) : List (RTok × (List Char → Option Nat)) → Option (RTok × Nat)
  | [] => none
  | (name, m) :: rest =>
    match m s with
    | some n => some (name, n)
    | none => firstPat s rest

/-- The whole compiled regex: the alternation of all patterns of
token_patterns, tried in table order at the current position; the first
pattern that matches wins.  Returns the pattern name and matched length. -/
def regexMatch (s : List Char) : Option (RTok × Nat) :=
  firstPat s tokenPatterns

/-- Reserved words that may not be used as identifiers. -/
def reservedWords : List String :=
  ["true", "false", "int", "float", "str", "bool", "void", "if", "elif",
   "else", "while", "for", "in", "range", "return"]

/-- State of PlasmaTokenizer: the (rstripped) source, the cursor, the
indent stack (top at the HEAD of the list here), and the line-start flag. -/
structure TokenizerState where
  code : List Char
  cursor : Nat
  indentLevels : List Nat
  lineStart : Bool
deriving DecidableEq, Repr

/-- Python whitespace characters stripped by str.rstrip. -/
def pyWsChar (c : Char) : Bool :=
  c = ' ' || c = chTab || c = chNL || c = chCR ||
    c = Char.ofNat 11 || c = Char.ofNat 12

/-- Python str.rstrip with the default argument. -/
def rstrip (s : List Char) : List Char :=
  (s.reverse.dropWhile pyWsChar).reverse

/-- PlasmaTokenizer.__init__. -/
def initTokenizer (code : String) : TokenizerState :=
  { code := rstrip code.data, cursor := 0, indentLevels := [0],
    lineStart := true }

/-- The inconsistent-dedent error message. -/
def dedentMsg (pos : Nat) : String :=
  "Inconsistent dedent at position " ++ toString pos ++ ": too few spaces"

/-- The while-loop of get_next_token that pops indent levels when the
measured width w is below the current top (head).  It pops while w is
below the top and at least two levels remain; after a pop it fails if w is
still below the new top, emits one DEDENT (the Bool is true) if w equals
the new top, and otherwise re-checks the loop condition, which then fails
silently.  Returns whether a DEDENT is emitted, and the remaining stack. -/
def dedentLoop (w : Nat) (pos : Nat) : List Nat → Except String (Bool × List Nat)
  | t :: t2 :: rest =>
    if w < t then
      if w < t2 then .error (dedentMsg pos)
      else if w = t2 then .ok (true, t2 :: rest)
      else dedentLoop w pos (t2 :: rest)
    else .ok (false, t :: t2 :: rest)
  | l => .ok (false, l)

/-- Width of a run of leading indentation: each tab expands to 4 columns. -/
def indentWidth (cs : List Char) : Nat :=
  cs.foldl (fun a c => a + (if c = chTab then 4 else 1)) 0

/-- Is this character inline indentation (space or tab)? -/
def isIndentChar (c : Char) : Bool := c = ' ' || c = chTab

/-- Length of a line-start comment match, the pattern being two slashes,
then everything up to a newline, then an optional newline. -/
def commentLineLen (cs : List Char) : Nat :=
  let body := countWhileP (fun c => c != chNL) (cs.drop 2)
  2 + body +
    (match cs.drop (2 + body) with
     | c :: _ => if c = chNL then 1 else 0
     | [] => 0)

/-- Outcome of the line-start block of get_next_token. -/
inductive LineStartOut where
  | emit (tok : Token) (st : TokenizerState)
  | skip (st : TokenizerState)
  | cont (st : TokenizerState)
deriving Repr

/-- The indentation-handling block at the top of get_next_token: measures
the leading width, skips blank and comment-only lines (skip means the
caller re-enters get_next_token), emits INDENT/DEDENT or fails, and
otherwise falls through (cont) to regex matching. -/
def lineStartStep (st : TokenizerState) : Except String LineStartOut :=
  if st.lineStart then
    let indentChars := (st.code.drop st.cursor).takeWhile isIndentChar
    let isize := indentWidth indentChars
    let c1 := st.cursor + indentChars.length
    let st1 : TokenizerState := { st with cursor := c1 }
    if decide (c1 < st.code.length) && (st.code.getD c1 ' ' = chNL) then
      .ok (.skip { st1 with cursor := c1 + 1, lineStart := true })
    else if (st.code.drop c1).take 2 = ['/', '/'] then
      let c2 := c1 + commentLineLen (st.code.drop c1)
      .ok (.skip { st1 with cursor := c2, lineStart := true })
    else
      match st.indentLevels with
      | [] => .error "empty indent stack"
      | current :: _ =>
        if isize > current then
          if (isize - current) % 4 ≠ 0 then
            .error ("Inconsistent indent at position " ++ toString c1 ++
              ": not a multiple of 4 spaces")
          else
            .ok (.emit { type := Tok.INDENT, value := "" }
              { st1 with indentLevels := isize :: st.indentLevels, lineStart := false })
        else
          match dedentLoop isize c1 st.indentLevels with
          | .error e => .error e
          | .ok (true, levels) =>
            .ok (.emit { type := Tok.DEDENT, value := "" }
              { st1 with indentLevels := levels, lineStart := false })
          | .ok (false, levels) =>
            .ok (.cont { st1 with indentLevels := levels, lineStart := false })
  else .ok (.cont st)

/-- Outcome of one regex-table step of get_next_token. -/
inductive ScanOut where
  | emit (tok : Token) (st : TokenizerState)
  | skip (st : TokenizerState)
deriving Repr

/-- The regex-matching half of get_next_token: match the pattern table at
the cursor, fail on no match, silently skip newline/whitespace/comment
matches (skip means the caller re-enters get_next_token), reject reserved
words matched as identifiers, and emit every other match as a token. -/
def scanStep (st : TokenizerState) : Except String ScanOut :=
  let suffix := st.code.drop st.cursor
  match regexMatch suffix with
  | none =>
    .error ("Invalid character at position " ++ toString st.cursor ++ ": " ++
      quoteStr (String.singleton (st.code.getD st.cursor ' ')))
  | some (name, len) =>
    let value := String.mk (suffix.take len)
    match name with
    | .NEWLINE => .ok (.skip { st with cursor := st.cursor + len, lineStart := true })
    | .WHITESPACE => .ok (.skip { st with cursor := st.cursor + len })
    | .COMMENT => .ok (.skip { st with cursor := st.cursor + len, lineStart := true })
    | .IDENTIFIER =>
      if reservedWords.contains value then
        .error ("Unexpected keyword " ++ quoteStr value ++
          " cannot be used as an identifier at position " ++
          toString ((st.cursor : Int) - (value.length : Int)))
      else
        .ok (.emit { type := Tok.IDENTIFIER, value := value }
          { st with cursor := st.cursor + len, lineStart := false })
    | .FLOAT => .ok (.emit { type := Tok.FLOAT, value := value }
        { st with cursor := st.cursor + len, lineStart := false })
    | .INT => .ok (.emit { type := Tok.INT, value := value }
        { st with cursor := st.cursor + len, lineStart := false })
    | .STR => .ok (.emit { type := Tok.STR, value := value }
        { st with cursor := st.cursor + len, lineStart := false })
    | .BOOL => .ok (.emit { type := Tok.BOOL, value := value }
        { st with cursor := st.cursor + len, lineStart := false })
    | .TYPE => .ok (.emit { type := Tok.TYPE, value := value }
        { st with cursor := st.cursor + len, lineStart := false })
    | .IF => .ok (.emit { type := Tok.IF, value := value }
        { st with cursor := st.cursor + len, lineStart := false })
    | .RETURN => .ok (.emit { type := Tok.RETURN, value := value }
        { st with cursor := st.cursor + len, lineStart := false })
    | .OPERATOR => .ok (.emit { type := Tok.OPERATOR, value := value }
        { st with cursor := st.cursor + len, lineStart := false })
    | .LPAREN => .ok (.emit { type := Tok.LPAREN, value := value }
        { st with cursor := st.cursor + len, lineStart := false })
    | .RPAREN => .ok (.emit { type := Tok.RPAREN, value := value }
        { st with cursor := st.cursor + len, lineStart := false })
    | .COMMA => .ok (.emit { type := Tok.COMMA, value := value }
        { st with cursor := st.cursor + len, lineStart := false })
    | .COLON => .ok (.emit { type := Tok.COLON, value := value }
        { st with cursor := st.cursor + len, lineStart := false })
    | .SEMI => .ok (.emit { type := Tok.SEMI, value := value }
        { st with cursor := st.cursor + len, lineStart := false })

/-- PlasmaTokenizer.get_next_token with explicit fuel for the re-entrant
calls it makes after consuming newlines, whitespace, comments and skipped
lines.  Returns none at end of stream, after emitting one DEDENT per call
while more than one indent level remains. -/
def getNextTokenF : Nat → TokenizerState → Except String (Option Token × TokenizerState)
  | 0, _ => .error "out of fuel"
  | fuel+1, st =>
    if st.cursor < st.code.length then
      match lineStartStep st with
      | .error e => .error e
      | .ok (.emit tok st') => .ok (some tok, st')
      | .ok (.skip st') => getNextTokenF fuel st'
      | .ok (.cont st') =>
        match scanStep st' with
        | .error e => .error e
        | .ok (.emit tok st'') => .ok (some tok, st'')
        | .ok (.skip st'') => getNextTokenF fuel st''
    else
      match st.indentLevels with
      | _ :: t2 :: rest =>
        .ok (some { type := Tok.DEDENT, value := "" },
          { st with indentLevels := t2 :: rest })
      | _ => .ok (none, st)

/-- get_next_token: every re-entrant call strictly advances the cursor, so
this fuel is always sufficient. -/
def getNextToken (st : TokenizerState) : Except String (Option Token × TokenizerState) :=
  getNextTokenF (st.code.length + 1 - st.cursor) st

/-- Driver that calls get_next_token repeatedly until it signals end of
stream, collecting the emitted tokens. -/
def tokenizeF : Nat → TokenizerState → Except String (List Token)
  | 0, _ => .error "out of fuel"
  | fuel+1, st =>
    match getNextToken st with
    | .error e => .error e
    | .ok (none, _) => .ok []
    | .ok (some t, st') => (tokenizeF fuel st').map (fun l => t :: l)

/-- All tokens of a source text, or the first tokenizer error. -/
def tokenize (code : String) : Except String (List Token) :=
  tokenizeF (2 * code.length + 8) (initTokenizer code)

/-- AST nodes: the dict shapes built by PlasmaParser, as a closed sum.
The Python dicts carry a type field; Node.typeName recovers it.  A float
literal stores its lexeme because Python float conversion is not
modelled; every other field is modelled exactly. -/
inductive Node where
  | program (body : List Node)
  | variableDeclaration (varType : String) (name : String) (op : String) (expr : Node)
  | functionDeclaration (returnType : String) (name : String) (params : List Node) (body : List Node)
  | parameter (paramType : String) (name : String)
  | ifStatement (expr : Node) (body : List Node)
  | returnStatement (expr : Option Node)
  | binaryExpression (op : String) (left : Node) (right : Node)
  | functionCall (name : String) (args : List Node)
  | identifier (value : String)
  | integerLiteral (value : Int)
  | floatLiteral (lexeme : String)
  | stringLiteral (value : String)
  | booleanLiteral (value : Bool)

/-- The string stored in the type field of the corresponding Python dict. -/
def Node.typeName : Node → String
  | .program _ => "program"
  | .variableDeclaration _ _ _ _ => "variable_declaration"
  | .functionDeclaration _ _ _ _ => "function_declaration"
  | .parameter _ _ => "parameter"
  | .ifStatement _ _ => "if_statement"
  | .returnStatement _ => "return_statement"
  | .binaryExpression _ _ _ => "binary_expression"
  | .functionCall _ _ => "function_call"
  | .identifier _ => "identifier"
  | .integerLiteral _ => "integer_literal"
  | .floatLiteral _ => "float_literal"
  | .stringLiteral _ => "string_literal"
  | .booleanLiteral _ => "boolean_literal"

/-- Value of a decimal digit string. -/
def digitsToNat (cs : List Char) : Nat :=
  cs.foldl (fun acc c => acc * 10 + (c.toNat - 48)) 0

/-- Python int() on an INT lexeme: an optional minus sign and digits. -/
def pyInt (s : String) : Int :=
  match s.data with
  | c :: rest => if c = '-' then - (digitsToNat rest : Int) else (digitsToNat s.data : Int)
  | [] => 0

/-- The re.sub escape decoding of _string: each backslash followed by one
of single quote, double quote, backslash, n, t is replaced by the escaped
character; any other backslash sequence is left untouched. -/
def decodeEscapes : List Char → List Char
  | [] => []
  | c :: rest =>
    if c = chBS then
      match rest with
      | [] => [c]
      | c2 :: rest2 =>
        if c2 = chSQ || c2 = chDQ || c2 = chBS then c2 :: decodeEscapes rest2
        else if c2 = 'n' then chNL :: decodeEscapes rest2
        else if c2 = 't' then chTab :: decodeEscapes rest2
        else c :: decodeEscapes (c2 :: rest2)
    else c :: decodeEscapes rest

/-- State of PlasmaParser: its tokenizer and the one-token lookahead. -/
structure PState where
  tokzr : TokenizerState
  lookahead : Option Token
deriving DecidableEq, Repr

/-- The TypeError Python raises when code subscripts a missing lookahead
(None); kept distinct from the SyntaxError messages. -/
def noneSubscriptMsg : String :=
  "TypeError: " ++ quoteStr "NoneType" ++ " object is not subscriptable"

/-- PlasmaParser._eat: checks the lookahead token kind and advances. -/
def eat (tt : Tok) (st : PState) : Except String (Token × PState) :=
  match st.lookahead with
  | none => .error ("Unexpected end of input. Expected: " ++ tokStr tt)
  | some tok =>
    if tok.type = tt then
      match getNextToken st.tokzr with
      | .error e => .error e
      | .ok (next, tz') => .ok (tok, { tokzr := tz', lookahead := next })
    else .error ("Unexpected token: " ++ tok.value ++ ". Expected: " ++ tokStr tt)

/-- PlasmaParser._lookahead_next: runs get_next_token from the saved
cursor and then restores ONLY the cursor; any change the scan made to the
indent stack or the line-start flag is kept (this matters: see C3). -/
def lookaheadNext (st : PState) : Except String (Option Token × PState) :=
  match getNextToken st.tokzr with
  | .error e => .error e
  | .ok (tok, tz') => .ok (tok, { st with tokzr := { tz' with cursor := st.tokzr.cursor } })

/-- PlasmaParser._integer (the ValueError branch is unreachable because
INT lexemes are always valid for int()). -/
def pInteger (st : PState) : Except String (Node × PState) :=
  match eat Tok.INT st with
  | .error e => .error e
  | .ok (t, st') => .ok (Node.integerLiteral (pyInt t.value), st')

/-- PlasmaParser._float; the lexeme is stored unconverted. -/
def pFloat (st : PState) : Except String (Node × PState) :=
  match eat Tok.FLOAT st with
  | .error e => .error e
  | .ok (t, st') => .ok (Node.floatLiteral t.value, st')

/-- PlasmaParser._string: strips the quotes and decodes escapes. -/
def pString (st : PState) : Except String (Node × PState) :=
  match eat Tok.STR st with
  | .error e => .error e
  | .ok (t, st') =>
    .ok (Node.stringLiteral (String.mk (decodeEscapes (t.value.data.drop 1).dropLast)), st')

/-- PlasmaParser._boolean. -/
def pBoolean (st : PState) : Except String (Node × PState) :=
  match eat Tok.BOOL st with
  | .error e => .error e
  | .ok (t, st') => .ok (Node.booleanLiteral (t.value = "true"), st')

/-- PlasmaParser._identifier. -/
def pIdentifier (st : PState) : Except String (Node × PState) :=
  match eat Tok.IDENTIFIER st with
  | .error e => .error e
  | .ok (t, st') => .ok (Node.identifier t.value, st')

/-- PlasmaParser._literal: dispatch on the lookahead kind. -/
def pLiteral (st : PState) : Except String (Node × PState) :=
  match st.lookahead with
  | none => .error "Unexpected end of input in literal"
  | some la =>
    if la.type = Tok.INT then pInteger st
    else if la.type = Tok.FLOAT then pFloat st
    else if la.type = Tok.STR then pString st
    else if la.type = Tok.BOOL then pBoolean st
    else .error ("Unexpected token type: " ++ tokStr la.type ++ ". Expected: INT, FLOAT, STR, BOOL")

/-- The comparison operators recognised by _comparative_expression and the
if-statement condition check. -/
def compOps : List String := ["==", "!=", "<", ">", "<=", ">="]

/-- The statement kinds _program treats as block-bearing (no terminator
required); while_statement is listed in the source though nothing
produces it. -/
def blockStmtTypes : List String :=
  ["function_declaration", "if_statement", "while_statement"]

/-- Does an expression node have the first accepted if-condition shape:
a binary expression whose operator is a comparison operator? -/
def isCompBinaryB (e : Node) : Bool :=
  match e with
  | .binaryExpression op _ _ => compOps.contains op
  | _ => false

/-- Does an expression node have the second accepted if-condition shape:
a boolean literal? -/
def isBoolLitB (e : Node) : Bool :=
  match e with
  | .booleanLiteral _ => true
  | _ => false

/-- Requests naming the mutually recursive PlasmaParser productions; loop
requests carry their Python local accumulator, and the two declaration
productions carry the already-consumed type keyword. -/
inductive PReq where
  | program
  | programLoop (acc : List Node)
  | statement
  | varDecl
  | varDeclRest (declType : String)
  | funcDecl (returnType : String)
  | paramsInit
  | paramsLoop (acc : List Node)
  | param
  | bodyLoop (acc : List Node)
  | ifBody
  | ifStmt
  | returnStmt
  | expr
  | comparative
  | compLoop (acc : Node)
  | additive
  | addLoop (acc : Node)
  | multiplicative
  | mulLoop (acc : Node)
  | primary
  | funcCall
  | argsInit
  | argsLoop (acc : List Node)

/-- Result type of each production: statement and expression productions
build one node, the loops and bodies build node lists. -/
def POutTy : PReq → Type
  | .programLoop _ => List Node
  | .paramsInit => List Node
  | .paramsLoop _ => List Node
  | .bodyLoop _ => List Node
  | .ifBody => List Node
  | .argsInit => List Node
  | .argsLoop _ => List Node
  | _ => Node

/-- The PlasmaParser recursive-descent engine: one structurally recursive
interpreter over fuel, dispatching on the requested production.  Each
branch is the direct translation of the correspondingly named Python
method (the named wrappers below restate the correspondence). -/
def runP : (fuel : Nat) → (r : PReq) → PState → Except String (POutTy r × PState)
  | 0, _, _ => .error "out of fuel"
  -- _program: wraps the statement loop into a program node
  | fuel+1, .program, st =>
    match runP fuel (.programLoop []) st with
    | .error e => .error e
    | .ok (body, st') => .ok (Node.program body, st')
  -- the statement loop of _program, with the terminator rules
  | fuel+1, .programLoop acc, st =>
    match st.lookahead with
    | none => .ok (acc, st)
    | some _ =>
      match runP fuel .statement st with
      | .error e => .error e
      | .ok (stmt, st1) =>
        if blockStmtTypes.contains stmt.typeName then
          match st1.lookahead with
          | some u =>
            if u.type = Tok.SEMI then
              match eat Tok.SEMI st1 with
              | .error e => .error e
              | .ok (_, st2) => runP fuel (.programLoop (acc ++ ([stmt] : List Node))) st2
            else runP fuel (.programLoop (acc ++ ([stmt] : List Node))) st1
          | none => runP fuel (.programLoop (acc ++ ([stmt] : List Node))) st1
        else
          match st1.lookahead with
          | some u =>
            if u.type = Tok.SEMI then
              match eat Tok.SEMI st1 with
              | .error e => .error e
              | .ok (_, st2) => runP fuel (.programLoop (acc ++ ([stmt] : List Node))) st2
            else .error ("Expected semicolon after " ++ stmt.typeName ++ " statement")
          | none => .error ("Expected semicolon after " ++ stmt.typeName ++ " statement")
  -- _statement: dispatch on the lookahead kind
  | fuel+1, .statement, st =>
    match st.lookahead with
    | none => .error noneSubscriptMsg
    | some la =>
      if la.type = Tok.TYPE then runP fuel .varDecl st
      else if la.type = Tok.IF then runP fuel .ifStmt st
      else if la.type = Tok.RETURN then runP fuel .returnStmt st
      else runP fuel .expr st
  -- _variable_declaration, first half: eat the TYPE, then evaluate (with
  -- the short-circuiting and peek side effects of the Python condition)
  -- whether IDENTIFIER + LPAREN follows, branching to _function_declaration
  | fuel+1, .varDecl, st =>
    match eat Tok.TYPE st with
    | .error e => .error e
    | .ok (ttok, st0) =>
      match st0.lookahead with
      | none => .error noneSubscriptMsg
      | some la =>
        if la.type = Tok.IDENTIFIER then
          match lookaheadNext st0 with
          | .error e => .error e
          | .ok (none, stA) => runP fuel (.varDeclRest ttok.value) stA
          | .ok (some _, stA) =>
            match lookaheadNext stA with
            | .error e => .error e
            | .ok (none, _) => .error noneSubscriptMsg
            | .ok (some t2, stB) =>
              if t2.type = Tok.LPAREN then runP fuel (.funcDecl ttok.value) stB
              else runP fuel (.varDeclRest ttok.value) stB
        else runP fuel (.varDeclRest ttok.value) st0
  -- _variable_declaration, second half: check the declared type, peek
  -- (three separate, short-circuited calls in the source) for the
  -- assignment operator, and build the node or fail
  | fuel+1, .varDeclRest declType, st =>
    match st.lookahead with
    | none => .error noneSubscriptMsg
    | some la =>
      if la.type = Tok.IDENTIFIER then
        if ["int", "float", "str", "bool"].contains declType then
          match lookaheadNext st with
          | .error e => .error e
          | .ok (none, _) => .error ("Assignment operator not found. Expected: " ++ quoteStr "=")
          | .ok (some _, stC) =>
            match lookaheadNext stC with
            | .error e => .error e
            | .ok (none, _) => .error noneSubscriptMsg
            | .ok (some u2, stD) =>
              if u2.type = Tok.OPERATOR then
                match lookaheadNext stD with
                | .error e => .error e
                | .ok (none, _) => .error noneSubscriptMsg
                | .ok (some u3, stE) =>
                  if u3.value = "=" then
                    match eat Tok.IDENTIFIER stE with
                    | .error e => .error e
                    | .ok (nameTok, st1) =>
                      match eat Tok.OPERATOR st1 with
                      | .error e => .error e
                      | .ok (_, st2) =>
                        match runP fuel .expr st2 with
                        | .error e => .error e
                        | .ok (expr, st3) =>
                          .ok (Node.variableDeclaration declType nameTok.value "=" expr, st3)
                  else .error ("Assignment operator not found. Expected: " ++ quoteStr "=")
              else .error ("Assignment operator not found. Expected: " ++ quoteStr "=")
        else if declType = "void" then
          .error ("Keyword " ++ quoteStr "void" ++
            " cannot be used to declare variables. Expected: int, float, str, or bool")
        else .error ("Unexpected token after type " ++ quoteStr declType ++ ". Expected: IDENTIFIER")
      else .error ("Unexpected token after type " ++ quoteStr declType ++ ". Expected: IDENTIFIER")
  -- _function_declaration
  | fuel+1, .funcDecl returnType, st =>
    match eat Tok.IDENTIFIER st with
    | .error e => .error e
    | .ok (nameTok, st1) =>
      match eat Tok.LPAREN st1 with
      | .error e => .error e
      | .ok (_, st2) =>
        match runP fuel .paramsInit st2 with
        | .error e => .error e
        | .ok (params, st4) =>
          match eat Tok.RPAREN st4 with
          | .error e => .error e
          | .ok (_, st5) =>
            match eat Tok.COLON st5 with
            | .error e => .error e
            | .ok (_, st6) =>
              match eat Tok.INDENT st6 with
              | .error e => .error e
              | .ok (_, st7) =>
                match runP fuel (.bodyLoop []) st7 with
                | .error e => .error e
                | .ok (body, st8) =>
                  match eat Tok.DEDENT st8 with
                  | .error e => .error e
                  | .ok (_, st9) =>
                    .ok (Node.functionDeclaration returnType nameTok.value params body, st9)
  -- the head of the parameter list of _function_declaration: empty when
  -- the lookahead is already the RPAREN (or the stream ended)
  | fuel+1, .paramsInit, st =>
    match st.lookahead with
    | some t =>
      if t.type ≠ Tok.RPAREN then
        match runP fuel .param st with
        | .error e => .error e
        | .ok (p, st1) => runP fuel (.paramsLoop ([p] : List Node)) st1
      else .ok ([], st)
    | none => .ok ([], st)
  -- the parameter loop of _function_declaration
  | fuel+1, .paramsLoop acc, st =>
    match st.lookahead with
    | some t =>
      if t.type = Tok.COMMA then
        match eat Tok.COMMA st with
        | .error e => .error e
        | .ok (_, st1) =>
          match runP fuel .param st1 with
          | .error e => .error e
          | .ok (p, st2) => runP fuel (.paramsLoop (acc ++ ([p] : List Node))) st2
      else .ok (acc, st)
    | none => .ok (acc, st)
  -- _parameter
  | _+1, .param, st =>
    match eat Tok.TYPE st with
    | .error e => .error e
    | .ok (ttok, st1) =>
      match eat Tok.IDENTIFIER st1 with
      | .error e => .error e
      | .ok (nameTok, st2) => .ok (Node.parameter ttok.value nameTok.value, st2)
  -- the statement loop shared by _function_declaration bodies and both
  -- accepting branches of _if_statement: parse statements until a DEDENT
  -- (or end of stream), eating one optional SEMI after each
  | fuel+1, .bodyLoop acc, st =>
    match st.lookahead with
    | none => .ok (acc, st)
    | some t =>
      if t.type = Tok.DEDENT then .ok (acc, st)
      else
        match runP fuel .statement st with
        | .error e => .error e
        | .ok (stmt, st1) =>
          match st1.lookahead with
          | some u =>
            if u.type = Tok.SEMI then
              match eat Tok.SEMI st1 with
              | .error e => .error e
              | .ok (_, st2) => runP fuel (.bodyLoop (acc ++ ([stmt] : List Node))) st2
            else runP fuel (.bodyLoop (acc ++ ([stmt] : List Node))) st1
          | none => runP fuel (.bodyLoop (acc ++ ([stmt] : List Node))) st1
  -- the colon-INDENT-body-DEDENT sequence duplicated in both accepting
  -- branches of _if_statement
  | fuel+1, .ifBody, st =>
    match eat Tok.COLON st with
    | .error e => .error e
    | .ok (_, st1) =>
      match eat Tok.INDENT st1 with
      | .error e => .error e
      | .ok (_, st2) =>
        match runP fuel (.bodyLoop []) st2 with
        | .error e => .error e
        | .ok (body, st3) =>
          match eat Tok.DEDENT st3 with
          | .error e => .error e
          | .ok (_, st4) => .ok (body, st4)
  -- _if_statement: the condition must be a binary expression with a
  -- comparison operator, or a boolean literal; anything else fails
  | fuel+1, .ifStmt, st =>
    match eat Tok.IF st with
    | .error e => .error e
    | .ok (_, st0) =>
      match runP fuel .expr st0 with
      | .error e => .error e
      | .ok (expr, st1) =>
        if isCompBinaryB expr then
          match runP fuel .ifBody st1 with
          | .error e => .error e
          | .ok (body, st2) => .ok (Node.ifStatement expr body, st2)
        else if isBoolLitB expr then
          match runP fuel .ifBody st1 with
          | .error e => .error e
          | .ok (body, st2) => .ok (Node.ifStatement expr body, st2)
        else .error "Expression must evaluate to bool"
  -- _return_statement
  | fuel+1, .returnStmt, st =>
    match eat Tok.RETURN st with
    | .error e => .error e
    | .ok (_, st0) =>
      match st0.lookahead with
      | some t =>
        if t.type ≠ Tok.SEMI then
          match runP fuel .expr st0 with
          | .error e => .error e
          | .ok (expr, st1) => .ok (Node.returnStatement (some expr), st1)
        else .ok (Node.returnStatement none, st0)
      | none => .ok (Node.returnStatement none, st0)
  -- _expression: a function call when the lookahead is an IDENTIFIER and
  -- the (side-effecting, twice-run) peek sees an LPAREN, else comparative
  | fuel+1, .expr, st =>
    match st.lookahead with
    | none => .error noneSubscriptMsg
    | some la =>
      if la.type = Tok.IDENTIFIER then
        match lookaheadNext st with
        | .error e => .error e
        | .ok (none, stA) => runP fuel .comparative stA
        | .ok (some _, stA) =>
          match lookaheadNext stA with
          | .error e => .error e
          | .ok (none, _) => .error noneSubscriptMsg
          | .ok (some t2, stB) =>
            if t2.type = Tok.LPAREN then runP fuel .funcCall stB
            else runP fuel .comparative stB
      else runP fuel .comparative st
  -- _comparative_expression
  | fuel+1, .comparative, st =>
    match runP fuel .additive st with
    | .error e => .error e
    | .ok (left, st1) => runP fuel (.compLoop left) st1
  -- the while-loop of _comparative_expression (left-associative)
  | fuel+1, .compLoop acc, st =>
    match st.lookahead with
    | some t =>
      if t.type = Tok.OPERATOR ∧ compOps.contains t.value then
        match eat Tok.OPERATOR st with
        | .error e => .error e
        | .ok (opTok, st1) =>
          match runP fuel .additive st1 with
          | .error e => .error e
          | .ok (right, st2) => runP fuel (.compLoop (Node.binaryExpression opTok.value acc right)) st2
      else .ok (acc, st)
    | none => .ok (acc, st)
  -- _additive_expression
  | fuel+1, .additive, st =>
    match runP fuel .multiplicative st with
    | .error e => .error e
    | .ok (left, st1) => runP fuel (.addLoop left) st1
  -- the while-loop of _additive_expression (left-associative)
  | fuel+1, .addLoop acc, st =>
    match st.lookahead with
    | some t =>
      if t.type = Tok.OPERATOR ∧ (t.value = "+" ∨ t.value = "-") then
        match eat Tok.OPERATOR st with
        | .error e => .error e
        | .ok (opTok, st1) =>
          match runP fuel .multiplicative st1 with
          | .error e => .error e
          | .ok (right, st2) => runP fuel (.addLoop (Node.binaryExpression opTok.value acc right)) st2
      else .ok (acc, st)
    | none => .ok (acc, st)
  -- _multiplicative_expression
  | fuel+1, .multiplicative, st =>
    match runP fuel .primary st with
    | .error e => .error e
    | .ok (left, st1) => runP fuel (.mulLoop left) st1
  -- the while-loop of _multiplicative_expression (left-associative)
  | fuel+1, .mulLoop acc, st =>
    match st.lookahead with
    | some t =>
      if t.type = Tok.OPERATOR ∧ (t.value = "*" ∨ t.value = "/") then
        match eat Tok.OPERATOR st with
        | .error e => .error e
        | .ok (opTok, st1) =>
          match runP fuel .primary st1 with
          | .error e => .error e
          | .ok (right, st2) => runP fuel (.mulLoop (Node.binaryExpression opTok.value acc right)) st2
      else .ok (acc, st)
    | none => .ok (acc, st)
  -- _primary_expression: a literal, a function call (after the same
  -- side-effecting double peek as _expression), an identifier, or an error
  | fuel+1, .primary, st =>
    match st.lookahead with
    | none => .error noneSubscriptMsg
    | some la =>
      if [Tok.INT, Tok.FLOAT, Tok.STR, Tok.BOOL].contains la.type then pLiteral st
      else if la.type = Tok.IDENTIFIER then
        match lookaheadNext st with
        | .error e => .error e
        | .ok (none, stA) => pIdentifier stA
        | .ok (some _, stA) =>
          match lookaheadNext stA with
          | .error e => .error e
          | .ok (none, _) => .error noneSubscriptMsg
          | .ok (some t2, stB) =>
            if t2.type = Tok.LPAREN then runP fuel .funcCall stB
            else pIdentifier stB
      else
        .error ("Unexpected token type: " ++ tokStr la.type ++
          ". Expected: INT, FLOAT, STR, BOOL, or IDENTIFIER")
  -- _function_call
  | fuel+1, .funcCall, st =>
    match eat Tok.IDENTIFIER st with
    | .error e => .error e
    | .ok (nameTok, st1) =>
      match eat Tok.LPAREN st1 with
      | .error e => .error e
      | .ok (_, st2) =>
        match runP fuel .argsInit st2 with
        | .error e => .error e
        | .ok (args, st4) =>
          match eat Tok.RPAREN st4 with
          | .error e => .error e
          | .ok (_, st5) => .ok (Node.functionCall nameTok.value args, st5)
  -- the head of the argument list of _function_call: empty when the
  -- lookahead is already the RPAREN (or the stream ended)
  | fuel+1, .argsInit, st =>
    match st.lookahead with
    | some t =>
      if t.type ≠ Tok.RPAREN then
        match runP fuel .expr st with
        | .error e => .error e
        | .ok (a, st1) => runP fuel (.argsLoop ([a] : List Node)) st1
      else .ok ([], st)
    | none => .ok ([], st)
  -- the argument loop of _function_call
  | fuel+1, .argsLoop acc, st =>
    match st.lookahead with
    | some t =>
      if t.type = Tok.COMMA then
        match eat Tok.COMMA st with
        | .error e => .error e
        | .ok (_, st1) =>
          match runP fuel .expr st1 with
          | .error e => .error e
          | .ok (a, st2) => runP fuel (.argsLoop (acc ++ ([a] : List Node))) st2
      else .ok (acc, st)
    | none => .ok (acc, st)

/-- PlasmaParser._program. -/
def pProgramF (fuel : Nat) (st : PState) : Except String (Node × PState) :=
  runP fuel .program st

/-- PlasmaParser._statement. -/
def pStatementF (fuel : Nat) (st : PState) : Except String (Node × PState) :=
  runP fuel .statement st

/-- PlasmaParser._if_statement. -/
def pIfStatementF (fuel : Nat) (st : PState) : Except String (Node × PState) :=
  runP fuel .ifStmt st

/-- PlasmaParser._expression. -/
def pExpressionF (fuel : Nat) (st : PState) : Except String (Node × PState) :=
  runP fuel .expr st

/-- PlasmaParser._function_call. -/
def pFunctionCallF (fuel : Nat) (st : PState) : Except String (Node × PState) :=
  runP fuel .funcCall st

/-- The statement loop of PlasmaParser._program, with the body list. -/
def pProgramLoopF (fuel : Nat) (st : PState) (acc : List Node) : Except String (List Node × PState) :=
  runP fuel (.programLoop acc) st

/-- Fuel that is ample for parsing a given source text: the call depth of
the recursive-descent parser is bounded by a small constant per consumed
token, and every token consumes at least one character. -/
def parseFuel (code : String) : Nat := 16 * code.length + 64

/-- PlasmaParser.parse: builds a fresh tokenizer, primes the lookahead and
runs _program, returning the program node or the first error. -/
def parse (code : String) : Except String Node :=
  let tz := initTokenizer code
  match getNextToken tz with
  | .error e => .error e
  | .ok (tok, tz') =>
    match pProgramF (parseFuel code) { tokzr := tz', lookahead := tok } with
    | .error e => .error e
    | .ok (node, _) => .ok node

/-- The one shape check of _if_statement, as one predicate: a comparison
binary expression or a boolean literal. -/
def boolShaped (e : Node) : Bool := isCompBinaryB e || isBoolLitB e

/-- Is a parsed statement one of the block-bearing kinds that _program
exempts from the terminator requirement? -/
def isBlockStmt (stmt : Node) : Bool := blockStmtTypes.contains stmt.typeName

/-- Is the parser lookahead a semicolon?  (False also at end of stream.) -/
def lookIsSemi (st : PState) : Bool :=
  match st.lookahead with
  | some t => t.type == Tok.SEMI
  | none => false

/-- The condition _expression evaluates through its two peek calls: the
first peek returns a token and the second returns an LPAREN.  (Both calls
leave their side effects on the threaded state; this predicate only
reports what the branch test sees.) -/
def peekSeesLParen (st : PState) : Bool :=
  match lookaheadNext st with
  | .error _ => false
  | .ok (none, _) => false
  | .ok (some _, stA) =>
    match lookaheadNext stA with
    | .error _ => false
    | .ok (none, _) => false
    | .ok (some t2, _) => t2.type == Tok.LPAREN

/-- Did a parse produce a program (rather than raise)? -/
def exceptIsOk : Except String Node → Bool
  | .ok _ => true
  | .error _ => false

/-- The state carried by a line-start outcome. -/
def LineStartOut.state : LineStartOut → TokenizerState
  | .emit _ st => st
  | .skip st => st
  | .cont st => st

/-- The state carried by a scan outcome. -/
def ScanOut.state : ScanOut → TokenizerState
  | .emit _ st => st
  | .skip st => st

/-- The indent-stack invariant, on the embedded (top-first) stack: the
bottom entry is 0 and entries strictly decrease from top to bottom of the
list, i.e. the Python list (read bottom to top) starts at 0 and strictly
increases. -/
def IndentInv (l : List Nat) : Prop :=
  l.getLast? = some 0 ∧ List.Chain' (fun a b => b < a) l

/-- The source text of the C3 failing input, as a character list. -/
def fiCode : List Char := ("int f():\n    return x\n;").data

/-- Dropping the top of a stack of depth at least two preserves the
indent-stack invariant. -/
theorem IndentInv_tail {t t2 : Nat} {rest : List Nat}
    (h : IndentInv (t :: t2 :: rest)) : IndentInv (t2 :: rest) := by
  obtain ⟨hlast, hchain⟩ := h
  exact ⟨by rwa [List.getLast?_cons_cons] at hlast, (List.chain'_cons.mp hchain).2⟩

/-- Pushing a strictly larger width preserves the indent-stack invariant. -/
theorem IndentInv_push {w t : Nat} {rest : List Nat}
    (h : IndentInv (t :: rest)) (hw : t < w) : IndentInv (w :: t :: rest) := by
  obtain ⟨hlast, hchain⟩ := h
  exact ⟨by rwa [List.getLast?_cons_cons], List.chain'_cons.mpr ⟨hw, hchain⟩⟩

/-- The dedent loop preserves the indent-stack invariant whenever it
returns instead of raising. -/
theorem dedentLoop_inv (w pos : Nat) :
    ∀ (l : List Nat) (b : Bool) (l' : List Nat),
      IndentInv l → dedentLoop w pos l = .ok (b, l') → IndentInv l' := by
  intro l
  induction l with
  | nil =>
    intro b l' hinv h
    simp [IndentInv] at hinv
  | cons t tail ih =>
    intro b l' hinv h
    cases tail with
    | nil =>
      simp [dedentLoop] at h
      obtain ⟨-, hl⟩ := h
      exact hl ▸ hinv
    | cons t2 rest =>
      simp only [dedentLoop] at h
      split at h
      · split at h
        · exact absurd h (by simp)
        · split at h
          · simp only [Except.ok.injEq, Prod.mk.injEq] at h
            exact h.2 ▸ IndentInv_tail hinv
          · exact ih b l' (IndentInv_tail hinv) h
      · simp only [Except.ok.injEq, Prod.mk.injEq] at h
        exact h.2 ▸ hinv

/-- The line-start block preserves the indent-stack invariant on every
outcome state. -/
theorem lineStartStep_inv (st : TokenizerState) (out : LineStartOut)
    (hinv : IndentInv st.indentLevels) (h : lineStartStep st = .ok out) :
    IndentInv out.state.indentLevels := by
  unfold lineStartStep at h
  split at h
  · dsimp only at h
    split at h
    · simp only [Except.ok.injEq] at h
      subst h
      exact hinv
    · split at h
      · simp only [Except.ok.injEq] at h
        subst h
        exact hinv
      · split at h
        · exact absurd h (by simp)
        · rename_i current tailLevels heq
          split at h
          · split at h
            · exact absurd h (by simp)
            · simp only [Except.ok.injEq] at h
              subst h
              simp only [LineStartOut.state]
              rename_i hgt _
              exact heq ▸ IndentInv_push (heq ▸ hinv) hgt
          · split at h
            · exact absurd h (by simp)
            · rename_i levels hded
              simp only [Except.ok.injEq] at h
              subst h
              simp only [LineStartOut.state]
              exact dedentLoop_inv _ _ _ _ _ hinv hded
            · rename_i levels hded
              simp only [Except.ok.injEq] at h
              subst h
              simp only [LineStartOut.state]
              exact dedentLoop_inv _ _ _ _ _ hinv hded
  · simp only [Except.ok.injEq] at h
    subst h
    exact hinv

/-- The regex-matching step never changes the indent stack. -/
theorem scanStep_levels (st : TokenizerState) (out : ScanOut)
    (h : scanStep st = .ok out) :
    out.state.indentLevels = st.indentLevels := by
  unfold scanStep at h
  dsimp only at h
  split at h
  · simp at h
  · split at h <;>
      first
      | (simp only [Except.ok.injEq] at h; subst h; rfl)
      | (simp at h; done)
      | (split at h <;>
          first
          | (simp only [Except.ok.injEq] at h; subst h; rfl)
          | (simp at h; done))

/-- get_next_token preserves the indent-stack invariant on success, for
every fuel value. -/
theorem getNextTokenF_inv :
    ∀ (fuel : Nat) (st : TokenizerState) (tok : Option Token) (st' : TokenizerState),
      IndentInv st.indentLevels → getNextTokenF fuel st = .ok (tok, st') →
      IndentInv st'.indentLevels := by
  intro fuel
  induction fuel with
  | zero =>
    intro st tok st' _ h
    exact absurd h (by simp [getNextTokenF])
  | succ n ih =>
    intro st tok st' hinv h
    rw [getNextTokenF] at h
    split at h
    · cases hls : lineStartStep st with
      | error e => rw [hls] at h; exact absurd h (by simp)
      | ok out =>
        rw [hls] at h
        have hinv2 := lineStartStep_inv st out hinv hls
        cases out with
        | emit tok2 st2 =>
          simp only [Except.ok.injEq, Prod.mk.injEq] at h
          exact h.2 ▸ hinv2
        | skip st2 => exact ih st2 tok st' hinv2 h
        | cont st2 =>
          dsimp only at h
          cases hsc : scanStep st2 with
          | error e => rw [hsc] at h; exact absurd h (by simp)
          | ok out2 =>
            rw [hsc] at h
            have hl := scanStep_levels st2 out2 hsc
            cases out2 with
            | emit tok3 st3 =>
              simp only [Except.ok.injEq, Prod.mk.injEq] at h
              simp only [ScanOut.state] at hl
              simp only [LineStartOut.state] at hinv2
              exact h.2 ▸ (hl ▸ hinv2)
            | skip st3 =>
              simp only [ScanOut.state] at hl
              simp only [LineStartOut.state] at hinv2
              exact ih st3 tok st' (hl ▸ hinv2) h
    · split at h
      · rename_i t t2 rest heq
        simp only [Except.ok.injEq, Prod.mk.injEq] at h
        refine h.2 ▸ ?_
        exact IndentInv_tail (heq ▸ hinv)
      · simp only [Except.ok.injEq, Prod.mk.injEq] at h
        exact h.2 ▸ hinv

/-- Claim C7: at every reachable tokenizer state during one parse, the
indent stack is a strictly increasing (bottom to top) sequence of
non-negative widths whose first element is 0 (in this embedding the stack
is stored top-first, so the list strictly decreases and ends in 0); the
initial stack satisfies the invariant and every successful call of
get_next_token preserves it, so pushes only add widths greater than the
current top and pops never remove the base 0. -/
theorem claim_C7_indent_invariant :
    (∀ code : String, IndentInv (initTokenizer code).indentLevels) ∧
    (∀ (fuel : Nat) (st : TokenizerState) (tok : Option Token) (st' : TokenizerState),
      IndentInv st.indentLevels → getNextTokenF fuel st = .ok (tok, st') →
      IndentInv st'.indentLevels) :=
  ⟨fun _ => ⟨rfl, List.chain'_singleton 0⟩, getNextTokenF_inv⟩

/-- Witness for C7: the preservation half applied at a concrete reachable
state of tokenizing the text of one indented line, across the call that
pushes level 4 and emits INDENT. -/
theorem claim_C7_indent_invariant_witness : IndentInv ([4, 0] : List Nat) :=
  claim_C7_indent_invariant.2 8
    { code := ("a\n    b").data, cursor := 1, indentLevels := [0], lineStart := false }
    (some { type := Tok.INDENT, value := "" })
    { code := ("a\n    b").data, cursor := 6, indentLevels := [4, 0], lineStart := false }
    ⟨rfl, List.chain'_singleton 0⟩ rfl

/-- Claim C1 counterexample: parsing "abc;" does not fail at all; it
produces a Program node, so the claimed Lexical error at offset 0 naming
the character a does not occur. -/
theorem claim_C1_counterexample : exceptIsOk (parse "abc;") = true := rfl

/-- Claim C1 (amended): "abc" lexes as a single IDENTIFIER token, and
parsing "abc;" succeeds, producing a Program whose only statement is the
bare identifier abc. -/
theorem claim_C1_amended :
    parse "abc;" = .ok (Node.program [Node.identifier "abc"]) ∧
    tokenize "abc;" = .ok [{ type := Tok.IDENTIFIER, value := "abc" },
      { type := Tok.SEMI, value := ";" }] :=
  ⟨rfl, rfl⟩

/-- Claim C2 counterexample: tokenizing the quoted three-line text reaches
the third line (indented 2 columns) with indent stack 0, 4 (Python order);
2 is below the top 4 and popping lands on 0, never on 2, yet the tokenizer
does NOT raise: it pops to the base and returns the IDENTIFIER c, emitting
no DEDENT. -/
theorem claim_C2_counterexample :
    tokenize "a\n    b\n  c" = .ok [{ type := Tok.IDENTIFIER, value := "a" },
      { type := Tok.INDENT, value := "" },
      { type := Tok.IDENTIFIER, value := "b" },
      { type := Tok.IDENTIFIER, value := "c" }] := rfl

/-- Claim C2 (amended): on a dedent the loop pops while the measured
width w is below the top, and (a) raises the inconsistent-dedent error
exactly when w is also below the SECOND level, i.e. when after the first
pop w is still below the new top; (b) when w lies strictly between the
two topmost levels, the loop stops silently, with no DEDENT and no error,
leaving the popped stack; (c) when w equals the second level, one DEDENT
is emitted.  (The stack is stored top-first here.) -/
theorem claim_C2_amended :
    (∀ (w pos t t2 : Nat) (rest : List Nat), w < t → w < t2 →
      dedentLoop w pos (t :: t2 :: rest) = .error (dedentMsg pos)) ∧
    (∀ (w pos t t2 : Nat) (rest : List Nat), w < t → t2 < w →
      dedentLoop w pos (t :: t2 :: rest) = .ok (false, t2 :: rest)) ∧
    (∀ (w pos t : Nat) (rest : List Nat), w < t →
      dedentLoop w pos (t :: w :: rest) = .ok (true, w :: rest)) := by
  refine ⟨?_, ?_, ?_⟩
  · intro w pos t t2 rest h1 h2
    simp [dedentLoop, h1, h2]
  · intro w pos t t2 rest h1 h2
    have h3 : ¬ w < t2 := by omega
    have h4 : ¬ w = t2 := by omega
    cases rest with
    | nil => simp [dedentLoop, h1, h3, h4]
    | cons t3 r => simp [dedentLoop, h1, h3, h4]
  · intro w pos t rest h1
    simp [dedentLoop, h1]

/-- Witness for C2 (amended): all three dedent-loop behaviours at
concrete stacks: the raise at stack 0, 4, 8 with width 2, the silent stop
at stack 0, 4 with width 2, and the single DEDENT at stack 0, 4, 8 with
width 4 (stacks written in Python order; the terms use top-first order). -/
theorem claim_C2_amended_witness :
    dedentLoop 2 7 [8, 4, 0] = .error (dedentMsg 7) ∧
    dedentLoop 2 9 [4, 0] = .ok (false, [0]) ∧
    dedentLoop 4 11 [8, 4, 0] = .ok (true, [4, 0]) :=
  ⟨claim_C2_amended.1 2 7 8 4 [0] (by decide) (by decide),
   claim_C2_amended.2.1 2 9 4 0 [] (by decide) (by decide),
   claim_C2_amended.2.2 4 11 8 [0] (by decide)⟩

/-- Claim C3 (the code contradicts it): _lookahead_next restores only the
cursor.  In the concrete parser state reached inside
parse "int f():\n    return x\n;" right before the return expression is
reduced (cursor 21, lookahead IDENTIFIER x, indent stack 0, 4 in Python
order), the peek crosses the newline, POPS the indent stack to 0 and
keeps that pop after restoring the cursor; the pre-peek next token is
DEDENT but the post-peek next token is SEMI, so the DEDENT is lost and
the whole parse fails expecting DEDENT, though under a side-effect-free
peek the input would parse. -/
theorem claim_C3_peek_not_side_effect_free :
    parse "int f():\n    return x\n;" = .error "Unexpected end of input. Expected: DEDENT" ∧
    lookaheadNext { tokzr := { code := fiCode, cursor := 21, indentLevels := [4, 0], lineStart := false }, lookahead := some { type := Tok.IDENTIFIER, value := "x" } } =
      .ok (some { type := Tok.DEDENT, value := "" },
        { tokzr := { code := fiCode, cursor := 21, indentLevels := [0], lineStart := false }, lookahead := some { type := Tok.IDENTIFIER, value := "x" } }) ∧
    getNextToken { code := fiCode, cursor := 21, indentLevels := [4, 0], lineStart := false } =
      .ok (some { type := Tok.DEDENT, value := "" },
        { code := fiCode, cursor := 22, indentLevels := [0], lineStart := false }) ∧
    getNextToken { code := fiCode, cursor := 21, indentLevels := [0], lineStart := false } =
      .ok (some { type := Tok.SEMI, value := ";" },
        { code := fiCode, cursor := 23, indentLevels := [0], lineStart := false }) :=
  ⟨rfl, rfl, rfl, rfl⟩

/-- Claim C6: precedence and associativity, on the spec's own example and
one chain per tier: "2 + 3 * 4;" puts + on top with *(3,4) as its right
child; minus and times chains associate left-to-right; the comparison
tier binds looser than the additive tier. -/
theorem claim_C6_precedence :
    parse "2 + 3 * 4;" = .ok (Node.program [Node.binaryExpression "+"
      (Node.integerLiteral 2)
      (Node.binaryExpression "*" (Node.integerLiteral 3) (Node.integerLiteral 4))]) ∧
    parse "1 - 2 - 3;" = .ok (Node.program [Node.binaryExpression "-"
      (Node.binaryExpression "-" (Node.integerLiteral 1) (Node.integerLiteral 2))
      (Node.integerLiteral 3)]) ∧
    parse "2 * 3 * 4;" = .ok (Node.program [Node.binaryExpression "*"
      (Node.binaryExpression "*" (Node.integerLiteral 2) (Node.integerLiteral 3))
      (Node.integerLiteral 4)]) ∧
    parse "1 + 2 == 3;" = .ok (Node.program [Node.binaryExpression "=="
      (Node.binaryExpression "+" (Node.integerLiteral 1) (Node.integerLiteral 2))
      (Node.integerLiteral 3)]) ∧
    parse "1 < 2 == true;" = .ok (Node.program [Node.binaryExpression "=="
      (Node.binaryExpression "<" (Node.integerLiteral 1) (Node.integerLiteral 2))
      (Node.booleanLiteral true)]) :=
  ⟨rfl, rfl, rfl, rfl, rfl⟩

/-- Claim C8: keyword patterns are tried before IDENTIFIER with no word
boundary, so "intx = 5;" is lexed as TYPE int followed by IDENTIFIER x
(then operator, integer and semicolon), never as one identifier intx. -/
theorem claim_C8_keyword_splits_identifier :
    tokenize "intx = 5;" = .ok [{ type := Tok.TYPE, value := "int" },
      { type := Tok.IDENTIFIER, value := "x" },
      { type := Tok.OPERATOR, value := "=" },
      { type := Tok.INT, value := "5" },
      { type := Tok.SEMI, value := ";" }] := rfl

/-- Claim C9: the INT pattern takes an optional leading minus sign, so
"2-3;" lexes as the two integer literals 2 and -3 and parsing it raises
the expected-semicolon error after the first literal, while the spaced
"2 - 3;" parses as the subtraction. -/
theorem claim_C9_signed_int_lexing :
    tokenize "2-3;" = .ok [{ type := Tok.INT, value := "2" },
      { type := Tok.INT, value := "-3" },
      { type := Tok.SEMI, value := ";" }] ∧
    parse "2-3;" = .error "Expected semicolon after integer_literal statement" ∧
    parse "2 - 3;" = .ok (Node.program
      [Node.binaryExpression "-" (Node.integerLiteral 2) (Node.integerLiteral 3)]) :=
  ⟨rfl, rfl, rfl⟩

/-- A successful _function_call always returns a function_call node. -/
theorem runP_funcCall_shape :
    ∀ (fuel : Nat) (st st' : PState) (e : Node),
      runP fuel .funcCall st = .ok (e, st') →
      ∃ name args, e = Node.functionCall name args := by
  intro fuel st st' e h
  cases fuel with
  | zero => simp [runP] at h
  | succ n =>
    simp only [runP] at h
    repeat' split at h
    all_goals
      first
      | (simp at h; done)
      | (simp only [Except.ok.injEq, Prod.mk.injEq] at h
         exact ⟨_, _, h.1.symm⟩)

/-- Claim C10: an expression that starts with IDENTIFIER and (per the
parser's double peek) an LPAREN is handed entirely to _function_call, so
on success it is a bare function_call node and never extends into a
binary expression; concretely, "foo() == 1;" fails expecting a semicolon
right after the call, and the same condition expression makes the
if-statement reject it as non-boolean. -/
theorem claim_C10_call_expression :
    (∀ (fuel : Nat) (st st' : PState) (la : Token) (e : Node),
      st.lookahead = some la → la.type = Tok.IDENTIFIER →
      peekSeesLParen st = true →
      pExpressionF (fuel+1) st = .ok (e, st') →
      ∃ name args, e = Node.functionCall name args) ∧
    parse "foo() == 1;" = .error "Expected semicolon after function_call statement" ∧
    parse "if foo() == 1:" = .error "Expression must evaluate to bool" := by
  refine ⟨?_, rfl, rfl⟩
  intro fuel st st' la e hla htype hpeek h
  unfold peekSeesLParen at hpeek
  simp only [pExpressionF, runP] at h
  rw [hla] at h
  dsimp only at h
  rw [if_pos htype] at h
  cases h1 : lookaheadNext st with
  | error err => rw [h1] at hpeek; simp at hpeek
  | ok pr =>
    obtain ⟨t1opt, stA⟩ := pr
    rw [h1] at h hpeek
    cases t1opt with
    | none => simp at hpeek
    | some t1 =>
      dsimp only at h hpeek
      cases h2 : lookaheadNext stA with
      | error err => rw [h2] at hpeek; simp at hpeek
      | ok pr2 =>
        obtain ⟨t2opt, stB⟩ := pr2
        rw [h2] at h hpeek
        cases t2opt with
        | none => simp at hpeek
        | some t2 =>
          dsimp only at h hpeek
          have ht2 : t2.type = Tok.LPAREN := by simpa using hpeek
          rw [if_pos ht2] at h
          exact runP_funcCall_shape fuel stB st' e h

/-- Witness for C10: the general half applied at the concrete parser
state reached inside parse "foo() == 1;" when _expression starts (cursor
after foo, lookahead IDENTIFIER foo, peek sees the LPAREN). -/
theorem claim_C10_call_expression_witness :
    ∃ name args, Node.functionCall "foo" ([] : List Node) = Node.functionCall name args :=
  claim_C10_call_expression.1 29
    { tokzr := { code := ("foo() == 1;").data, cursor := 3, indentLevels := [0], lineStart := false }, lookahead := some { type := Tok.IDENTIFIER, value := "foo" } }
    { tokzr := { code := ("foo() == 1;").data, cursor := 8, indentLevels := [0], lineStart := false }, lookahead := some { type := Tok.OPERATOR, value := "==" } }
    { type := Tok.IDENTIFIER, value := "foo" } (Node.functionCall "foo" [])
    rfl rfl rfl rfl

/-- Claim C4: the if-statement condition is accepted if and only if the
parsed expression is a comparison binary expression or a boolean literal:
when the condition parses to any other shape, _if_statement raises
exactly the bool error; and every successfully parsed if-statement node
carries a condition of one of the two accepted shapes.  The concrete
cases cover an identifier, an arithmetic binary expression, a function
call and a non-boolean literal (all rejected), and an accepted comparison
and boolean literal. -/
theorem claim_C4_if_condition_check :
    (∀ (fuel : Nat) (st st0 st1 : PState) (tIf : Token) (e : Node),
      eat Tok.IF st = .ok (tIf, st0) →
      pExpressionF fuel st0 = .ok (e, st1) →
      boolShaped e = false →
      pIfStatementF (fuel+1) st = .error "Expression must evaluate to bool") ∧
    (∀ (fuel : Nat) (st st2 : PState) (node : Node),
      pIfStatementF fuel st = .ok (node, st2) →
      ∃ e body, node = Node.ifStatement e body ∧ boolShaped e = true) ∧
    parse "if x:" = .error "Expression must evaluate to bool" ∧
    parse "if 1 + 2:" = .error "Expression must evaluate to bool" ∧
    parse "if foo():" = .error "Expression must evaluate to bool" ∧
    parse "if 1:" = .error "Expression must evaluate to bool" ∧
    parse "if 1 < 2:\n    3;" = .ok (Node.program [Node.ifStatement
      (Node.binaryExpression "<" (Node.integerLiteral 1) (Node.integerLiteral 2))
      [Node.integerLiteral 3]]) ∧
    parse "if true:\n    4;" = .ok (Node.program
      [Node.ifStatement (Node.booleanLiteral true) [Node.integerLiteral 4]]) := by
  refine ⟨?_, ?_, rfl, rfl, rfl, rfl, rfl, rfl⟩
  · intro fuel st st0 st1 tIf e hIf hExpr hShape
    have hs : isCompBinaryB e = false ∧ isBoolLitB e = false := by
      simpa [boolShaped] using hShape
    simp only [pIfStatementF, runP]
    rw [hIf]
    dsimp only
    have hExpr' : runP fuel .expr st0 = .ok (e, st1) := hExpr
    rw [hExpr']
    dsimp only
    simp [hs.1, hs.2]
  · intro fuel st st2 node h
    cases fuel with
    | zero => simp [pIfStatementF, runP] at h
    | succ n =>
      simp only [pIfStatementF, runP] at h
      repeat' split at h
      all_goals
        first
        | (simp at h; done)
        | (simp only [Except.ok.injEq, Prod.mk.injEq] at h
           refine ⟨_, _, h.1.symm, ?_⟩
           simp_all [boolShaped])

/-- Witness for C4: the rejection half applied at the concrete parser
state reached inside parse "if x:" (after the IF token, where the
condition parses to the bare identifier x). -/
theorem claim_C4_if_condition_check_witness :
    pIfStatementF 21 { tokzr := { code := ("if x:").data, cursor := 2, indentLevels := [0], lineStart := false }, lookahead := some { type := Tok.IF, value := "if" } } =
      .error "Expression must evaluate to bool" :=
  claim_C4_if_condition_check.1 20
    { tokzr := { code := ("if x:").data, cursor := 2, indentLevels := [0], lineStart := false }, lookahead := some { type := Tok.IF, value := "if" } }
    { tokzr := { code := ("if x:").data, cursor := 4, indentLevels := [0], lineStart := false }, lookahead := some { type := Tok.IDENTIFIER, value := "x" } }
    { tokzr := { code := ("if x:").data, cursor := 5, indentLevels := [0], lineStart := false }, lookahead := some { type := Tok.COLON, value := ":" } }
    { type := Tok.IF, value := "if" } (Node.identifier "x")
    rfl rfl rfl

/-- Claim C5: after a parsed statement, _program requires a semicolon
exactly for the non-block statement kinds: whenever the statement's kind
is not block-bearing and the next lookahead is not a semicolon (including
end of stream), the program loop raises the expected-semicolon error
naming the kind; block-bearing statements need no terminator but one
immediately following is consumed without error.  Concretely: "42" fails
at end of stream, "5 6;" fails on the non-semicolon token, an if
statement parses with no trailing semicolon and also with one. -/
theorem claim_C5_statement_terminators :
    (∀ (fuel : Nat) (st st1 : PState) (acc : List Node) (stmt : Node) (la : Token),
      st.lookahead = some la →
      pStatementF fuel st = .ok (stmt, st1) →
      isBlockStmt stmt = false →
      lookIsSemi st1 = false →
      pProgramLoopF (fuel+1) st acc =
        .error ("Expected semicolon after " ++ stmt.typeName ++ " statement")) ∧
    parse "42" = .error "Expected semicolon after integer_literal statement" ∧
    parse "5 6;" = .error "Expected semicolon after integer_literal statement" ∧
    parse "if true:\n    1;" = .ok (Node.program
      [Node.ifStatement (Node.booleanLiteral true) [Node.integerLiteral 1]]) ∧
    parse "if true:\n    2;\n;" = .ok (Node.program
      [Node.ifStatement (Node.booleanLiteral true) [Node.integerLiteral 2]]) := by
  refine ⟨?_, rfl, rfl, rfl, rfl⟩
  intro fuel st st1 acc stmt la hla hstmt hblock hsemi
  simp only [pProgramLoopF, runP]
  rw [hla]
  dsimp only
  have hstmt' : runP fuel .statement st = .ok (stmt, st1) := hstmt
  rw [hstmt']
  dsimp only
  have hb : blockStmtTypes.contains stmt.typeName = false := hblock
  have hb2 : stmt.typeName ∉ blockStmtTypes := by simpa using hb
  cases hu : st1.lookahead with
  | none => simp [hb2, hu]
  | some u =>
    have hut : ¬ (u.type = Tok.SEMI) := by
      simpa [lookIsSemi, hu] using hsemi
    simp [hb2, hu, hut]

/-- Witness for C5: the requirement half applied at the concrete initial
parser state of parse "42" (lookahead INT 42, next token end of stream). -/
theorem claim_C5_statement_terminators_witness :
    pProgramLoopF 21 { tokzr := { code := ("42").data, cursor := 2, indentLevels := [0], lineStart := false }, lookahead := some { type := Tok.INT, value := "42" } } [] =
      .error ("Expected semicolon after " ++ (Node.integerLiteral 42).typeName ++ " statement") :=
  claim_C5_statement_terminators.1 20
    { tokzr := { code := ("42").data, cursor := 2, indentLevels := [0], lineStart := false }, lookahead := some { type := Tok.INT, value := "42" } }
    { tokzr := { code := ("42").data, cursor := 2, indentLevels := [0], lineStart := false }, lookahead := none }
    [] (Node.integerLiteral 42) { type := Tok.INT, value := "42" }
    rfl rfl rfl rfl
